import Mathlib

/-!
Verification of `harmonica` gravity corrections against their specification.

The repository has two source files:
* `harmonica/gravity_corrections.py` — five element-wise gravity correction
  formulas (Bouguer, atmospheric, spherical-cap Bouguer, free air, Eötvös);
* `examples/forward/point_mass.py` — an example calling
  `harmonica.point_mass_gravity` (whose implementation is not in the sources).

We embed the numeric content over `ℚ` (the coefficients are decimal literals,
exactly representable).  `np.pi` is kept as an explicit parameter `pi` since π
is irrational; every claimed identity below is independent of its value.
Arrays become `List ℚ`; the NaN-initialised density array of
`bouguer_correction` becomes a `List (Option ℚ)` where `none` models NaN.
-/

set_option maxRecDepth 8000

namespace Harmonica

/-- Modelled from the spec: `harmonica/constants.py` is not under the sources;
the spec lists "gravitational constant" among the fixed, read-only physical
constants.  We use the CODATA value `6.6743e-11` the upstream package ships;
none of the claims below depends on the numeric value, only on its sign. -/
def GRAVITATIONAL_CONST : ℚ := 6.6743e-11

/-! ## `bouguer_correction` (gravity_corrections.py lines 67-76)

```python
oceans = np.array(topography < 0)
continent = np.logical_not(oceans)
density = np.full(topography.shape, np.nan, dtype="float")
density[continent] = density_crust
density[oceans] = -1 * (density_water - density_crust)
bouguer = 1e5 * 2 * np.pi * GRAVITATIONAL_CONST * density * topography
return bouguer
```
-/

/-- `oceans = np.array(topography < 0)` : element-wise sign mask. -/
def oceans (topography : List ℚ) : List Bool :=
  topography.map (fun t => decide (t < 0))

/-- `continent = np.logical_not(oceans)`. -/
def continent (topography : List ℚ) : List Bool :=
  (oceans topography).map (fun b => !b)

/-- Boolean-mask assignment `arr[mask] = value` on a numpy float array whose
entries may be NaN (`none`). -/
def masked_fill (mask : List Bool) (value : ℚ) (arr : List (Option ℚ)) :
    List (Option ℚ) :=
  List.zipWith (fun m a => if m then some value else a) mask arr

/-- The `density` array of `bouguer_correction`: starts as
`np.full(topography.shape, np.nan)`, then `density[continent] = density_crust`,
then `density[oceans] = -1 * (density_water - density_crust)`. -/
def density_array (topography : List ℚ) (density_crust density_water : ℚ) :
    List (Option ℚ) :=
  masked_fill (oceans topography) (-1 * (density_water - density_crust))
    (masked_fill (continent topography) density_crust
      (List.replicate topography.length none))

/-- `bouguer = 1e5 * 2 * np.pi * GRAVITATIONAL_CONST * density * topography`,
element-wise; a NaN (`none`) density entry would propagate through the
product, which `Option.map` models. -/
def bouguer_correction (pi : ℚ) (topography : List ℚ)
    (density_crust density_water : ℚ) : List (Option ℚ) :=
  List.zipWith
    (fun d t => d.map (fun dv => 1e5 * 2 * pi * GRAVITATIONAL_CONST * dv * t))
    (density_array topography density_crust density_water) topography

/-! ## `atmospheric_correction` (line 103) -/

/-- `atmos_correction = 0.874 - 9.9e-05 * topography + 3.56e-09 * topography**2`
(applied element-wise over arrays; embedded pointwise). -/
def atmospheric_correction (topography : ℚ) : ℚ :=
  0.874 - 9.9e-05 * topography + 3.56e-09 * topography ^ 2

/-! ## `spherical_bouguer_cap_correction` (lines 136-139)

The assignment on line 136 is a complete Python statement; line 137, which
begins with `+`, is a separate dead expression statement (a unary plus), so
the value returned on line 139 holds only the first two terms. -/

/-- The value actually computed and returned, as the code parses:
`spher_cap_corr = 0.001464139 * topography - 3.533047e-07 * topography**2`. -/
def spherical_bouguer_cap_correction (topography : ℚ) : ℚ :=
  0.001464139 * topography - 3.533047e-07 * topography ^ 2

/-- The full quartic documented in the function's own docstring
(Hinze 2013): `0.001464139 h - 3.533047e-07 h^2 + 1.002709e-13 h^3
+ 3.002407e-18 h^4`. -/
def spherical_cap_documented (topography : ℚ) : ℚ :=
  0.001464139 * topography - 3.533047e-07 * topography ^ 2
    + 1.002709e-13 * topography ^ 3 + 3.002407e-18 * topography ^ 4

/-! ## `free_air_correction` (lines 174-177)

As written the body is not valid Python: line 174 is a complete statement
(its parentheses are balanced and it ends in `)` plus a trailing space, with
no backslash continuation), and line 175 then begins a new statement with the
binary operator `*`, which Python rejects.  The expression the two lines spell
out — and the one the docstring documents — is embedded here.  The Python code
uses `np.sin` and `np.radians`; since π is irrational we abstract them as
function parameters, so every theorem below holds for the real sine. -/

/-- The full free-air expression spelled out on lines 174-175 and in the
docstring: `-(0.3087691 - 0.0004398 sin²(radians(latitude))) * topography
+ 7.2125e-08 * topography²`.  As written those two lines are rejected by the
Python parser (see the line model below); this is the intended value. -/
def free_air_correction (sin radians : ℚ → ℚ) (topography latitude : ℚ) : ℚ :=
  -(0.3087691 - 0.0004398 * (sin (radians latitude)) ^ 2) * topography
    + 7.2125e-08 * topography ^ 2

/-! ## `eotvos_correction` (lines 199-202)

As written the body is not valid Python either: line 199 ends in a bare `*`
with all brackets closed and no backslash, so the statement is cut off at the
newline.  The expression the two lines spell out is embedded here, with the
trigonometric functions abstracted as above. -/

/-- The full Eötvös expression spelled out on lines 199-200:
`7.503 * velocity * sin(radians(azimuth)) * cos(radians(latitude))
+ 0.004154 * velocity²`.  As written those lines are rejected by the Python
parser (see the line model below); this is the intended value. -/
def eotvos_correction (sin cos radians : ℚ → ℚ)
    (latitude velocity azimuth : ℚ) : ℚ :=
  7.503 * velocity * sin (radians azimuth) * cos (radians latitude)
    + 0.004154 * velocity ^ 2

/-! ## A model of the relevant fragment of Python's line structure

Python joins physical lines into one logical line only inside open brackets
or after a trailing backslash; otherwise the newline ends the statement.  A
logical line that ends in a binary operator such as `*` is incomplete, and an
expression statement beginning with the binary operator `*` is invalid (a
starred expression is only legal in call arguments, displays and assignment
targets).  We model exactly these rules on the literal text of the four
offending physical lines of `gravity_corrections.py`, transcribed verbatim. -/

/-- Line 174 of `gravity_corrections.py`, verbatim (note the trailing space
after the closing parenthesis and the absence of a backslash). -/
def line_174 : String :=
  r"    free_air_corr = -(0.3087691 - 0.0004398*(np.sin(np.radians(latitude)))**2) "

/-- Line 175 of `gravity_corrections.py`, verbatim. -/
def line_175 : String :=
  r"    * topography + 7.2125e-08 * topography**2"

/-- Line 199 of `gravity_corrections.py`, verbatim. -/
def line_199 : String :=
  r"    eotvos_corr = 7.503 * velocity * np.sin(np.radians(azimuth)) *"

/-- Line 200 of `gravity_corrections.py`, verbatim. -/
def line_200 : String :=
  r"    np.cos(np.radians(latitude)) + 0.004154 * velocity**2"

/-- Number of `(` minus number of `)` in a character list. -/
def netParens : List Char → Int
  | [] => 0
  | c :: cs => (if c = '(' then 1 else if c = ')' then (-1) else 0) + netParens cs

/-- Drop leading space characters. -/
def dropSpaces (l : List Char) : List Char :=
  l.dropWhile (fun c => c = ' ')

/-- Whether a character list contains a backslash (Python's explicit
line-continuation character). -/
def containsBackslash (l : List Char) : Bool :=
  l.any (fun c => c = '\\')

/-- The physical line, ignoring trailing spaces, ends in a binary `*` token
(a lone `*`, not part of the power operator `**`). -/
def endsWithMulToken (l : List Char) : Bool :=
  match dropSpaces l.reverse with
  | '*' :: c :: _ => decide (c ≠ '*')
  | ['*'] => true
  | _ => false

/-- The statement, ignoring indentation, begins with a binary `*` token
followed by a space — invalid as the start of a Python expression
statement. -/
def beginsWithMulToken (l : List Char) : Bool :=
  match dropSpaces l with
  | '*' :: ' ' :: _ => true
  | _ => false

/-- The physical line is a complete logical line on its own: all brackets
closed, no backslash, and it does not end dangling on a `*` operator. -/
def pyCompleteLine (s : String) : Bool :=
  decide (netParens s.data = 0) && !containsBackslash s.data
    && !endsWithMulToken s.data

/-- The physical line, as a logical line of its own, is an expression
statement beginning with the binary operator `*` — a Python parse error. -/
def pyMulStatementLine (s : String) : Bool :=
  decide (netParens s.data = 0) && beginsWithMulToken s.data

/-- The physical line ends its logical line (all brackets closed, no
backslash) while still expecting an operand after `*` — a Python parse
error at the newline. -/
def pyDanglingMulLine (s : String) : Bool :=
  decide (netParens s.data = 0) && !containsBackslash s.data
    && endsWithMulToken s.data

/-- The module `gravity_corrections.py` parses only if none of its physical
lines is an orphaned `* ...` statement or a statement cut off after a `*`. -/
def gravity_corrections_parses : Bool :=
  !(pyMulStatementLine line_175 || pyDanglingMulLine line_199)

/-! ## Scalar vs array inputs to `bouguer_correction`

`bouguer_correction` begins with `np.full(topography.shape, ...)`: a plain
Python scalar has no `shape` attribute, so that access raises
`AttributeError` before any arithmetic runs.  An array input proceeds with
the element-wise computation above.  `PyVal` distinguishes the two calling
conventions and `bouguer_correction_py` models the call including this
failure mode. -/

/-- A Python argument: a plain scalar, or a (1-D) numpy array. -/
inductive PyVal where
  | scalar (x : ℚ)
  | arr (xs : List ℚ)
deriving DecidableEq

/-- `bouguer_correction` as called from Python: the `topography.shape`
access on line 69 raises `AttributeError` for a plain scalar; for an array
the function returns the element-wise result. -/
def bouguer_correction_py (pi : ℚ) (topography : PyVal)
    (density_crust density_water : ℚ) : Except String (List (Option ℚ)) :=
  match topography with
  | .scalar _ => .error (r"AttributeError: scalar topography has no attribute shape")
  | .arr xs => .ok (bouguer_correction pi xs density_crust density_water)

/-- Whether a modelled Python call returned normally. -/
def pyOk {α : Type} : Except String α → Bool
  | .ok _ => true
  | .error _ => false

/-! ## `point_mass_gravity` (called from examples/forward/point_mass.py)

Modelled from the spec: the implementation of `harmonica.point_mass_gravity`
is not among the sources (only its caller
`examples/forward/point_mass.py` is).  The spec gives the algorithm for the
Cartesian `g_z` field: "for each observation point, sum over all sources the
term g_z = G · m · Δz / r³ where r is the Euclidean distance between source
and observation point, Δz is the vertical offset, and G is the gravitational
constant."  Positions are (easting, northing, vertical) triples; sources and
masses are paired positionally. -/

/-- Modelled from the spec: the kernel `Δz / r³` of the Cartesian vertical
point-mass field, `r` the Euclidean distance from source to observation
point. -/
noncomputable def point_mass_gz_kernel (obs src : ℝ × ℝ × ℝ) : ℝ :=
  (obs.2.2 - src.2.2) /
    (Real.sqrt ((obs.1 - src.1) ^ 2 + (obs.2.1 - src.2.1) ^ 2
      + (obs.2.2 - src.2.2) ^ 2)) ^ 3

/-- Modelled from the spec: `point_mass_gravity` for the Cartesian `g_z`
field — at each observation point, the sum over the positionally paired
sources and masses of `G · m · Δz / r³`. -/
noncomputable def point_mass_gravity (observations sources : List (ℝ × ℝ × ℝ))
    (masses : List ℝ) : List ℝ :=
  observations.map (fun p =>
    (List.zipWith
      (fun s m => (GRAVITATIONAL_CONST : ℝ) * m * point_mass_gz_kernel p s)
      sources masses).sum)

/-! ## Shared lemmas -/

/-- The two masked fills leave no `none` behind: the density array is
exactly the element-wise branch on the sign of the topography. -/
theorem density_array_eq (topography : List ℚ) (c w : ℚ) :
    density_array topography c w
      = topography.map (fun h => some (if h < 0 then -1 * (w - c) else c)) := by
  induction topography with
  | nil => rfl
  | cons t ts ih =>
    by_cases h : t < 0 <;>
      simp [density_array, oceans, continent, masked_fill, h,
        List.replicate_succ] at ih ⊢ <;>
      exact ih

/-- `bouguer_correction` in closed element-wise form, exactly as the code
computes it (ocean density written `-1 * (density_water - density_crust)`
as on line 74). -/
theorem bouguer_correction_eq_map (pi c w : ℚ) (topography : List ℚ) :
    bouguer_correction pi topography c w
      = topography.map (fun h =>
          some (1e5 * 2 * pi * GRAVITATIONAL_CONST
            * (if h < 0 then -1 * (w - c) else c) * h)) := by
  rw [bouguer_correction, density_array_eq,
    List.zipWith_map_left, List.zipWith_same]
  simp

/-! ## Claim theorems -/

/-- C3: `bouguer_correction` branches on the sign of each element — land
(`h ≥ 0`) yields `1e5 · 2π · G · density_crust · h`, ocean (`h < 0`) yields
`1e5 · 2π · G · (density_water - density_crust) · |h|`; at `h = 0` the output
is `0`; and with the default densities 2670 and 1040 the ocean branch uses
the density contrast `-1 * (1040 - 2670) = 1630`. -/
theorem bouguer_correction_branches (pi c w : ℚ) (topography : List ℚ) :
    (bouguer_correction pi topography c w
      = topography.map (fun h =>
          some (if h < 0
            then 1e5 * 2 * pi * GRAVITATIONAL_CONST * (w - c) * |h|
            else 1e5 * 2 * pi * GRAVITATIONAL_CONST * c * h)))
    ∧ bouguer_correction pi [(0 : ℚ)] c w = [some 0]
    ∧ (-1 : ℚ) * (1040 - 2670) = 1630 := by
  refine ⟨?_, ?_, by norm_num⟩
  · rw [bouguer_correction_eq_map]
    have hfun : (fun h : ℚ =>
        some (1e5 * 2 * pi * GRAVITATIONAL_CONST
          * (if h < 0 then -1 * (w - c) else c) * h))
      = (fun h : ℚ =>
        some (if h < 0
          then 1e5 * 2 * pi * GRAVITATIONAL_CONST * (w - c) * |h|
          else 1e5 * 2 * pi * GRAVITATIONAL_CONST * c * h)) := by
      funext h
      by_cases hh : h < 0
      · simp only [hh, if_true, Option.some.injEq]
        rw [abs_of_neg hh]; ring
      · simp [hh]
    rw [hfun]
  · rw [bouguer_correction_eq_map]; simp

/-- C5: `atmospheric_correction` is the quadratic polynomial
`0.874 - 9.9e-5 h + 3.56e-9 h²`, and its value at `h = 0` is exactly
`0.874` mGal. -/
theorem atmospheric_correction_quadratic (h : ℚ) :
    atmospheric_correction h = 0.874 - 9.9e-05 * h + 3.56e-09 * h ^ 2
    ∧ atmospheric_correction 0 = 0.874 :=
  ⟨rfl, by norm_num [atmospheric_correction]⟩

/-- C8: in `bouguer_correction` the ocean mask and the continent mask (its
logical negation) cover every index, so every `none` (NaN) of the initial
density array is overwritten and neither the density array nor the returned
array contains a `none` entry. -/
theorem bouguer_correction_no_nan (pi c w : ℚ) (topography : List ℚ) :
    ((List.zipWith (fun a b => a || b) (oceans topography)
        (continent topography)).all (fun b => b) = true)
    ∧ ((density_array topography c w).all (fun d => d.isSome) = true)
    ∧ ((bouguer_correction pi topography c w).all (fun x => x.isSome) = true) := by
  refine ⟨?_, ?_, ?_⟩
  · rw [continent, List.zipWith_map_right, List.zipWith_same]
    simp
  · rw [density_array_eq]
    simp
  · rw [bouguer_correction_eq_map]
    simp

/-- C1: at `h = 1000` the code returns `1.1108343` — only the first two terms
of the docstring's quartic, whose full value is `1.110937573307` — because
line 137 is a dead statement; the two disagree, so the function does not
evaluate the full documented polynomial. -/
theorem spherical_cap_truncated_at_1000 :
    spherical_bouguer_cap_correction 1000 = 1.1108343
    ∧ spherical_cap_documented 1000 = 1.110937573307
    ∧ spherical_bouguer_cap_correction 1000 ≠ spherical_cap_documented 1000 := by
  refine ⟨by norm_num [spherical_bouguer_cap_correction],
    by norm_num [spherical_cap_documented],
    by norm_num [spherical_bouguer_cap_correction, spherical_cap_documented]⟩

/-- C2: line 174 is already a complete logical line, and line 175 then starts
an expression statement with the binary `*` — a Python parse error, so
`free_air_correction` as written evaluates nothing; the documented free-air
expression itself does vanish at topography `0` (for any sine), as the claim
states. -/
theorem free_air_dead_line_and_zero_at_datum :
    pyCompleteLine line_174 = true ∧ pyMulStatementLine line_175 = true
    ∧ ∀ (s r : ℚ → ℚ) (lat : ℚ), free_air_correction s r 0 lat = 0 := by
  refine ⟨by decide, by decide, fun s r lat => ?_⟩
  simp [free_air_correction]

/-- C4: line 199 ends its logical line dangling on a binary `*` — a Python
parse error, so `eotvos_correction` as written cannot be called; the
documented Eötvös expression itself is `0` at velocity `0` for every
latitude, azimuth and any sine/cosine, as the claim states. -/
theorem eotvos_dangling_line_and_zero_velocity :
    pyDanglingMulLine line_199 = true
    ∧ ∀ (s c r : ℚ → ℚ) (lat az : ℚ), eotvos_correction s c r lat 0 az = 0 := by
  refine ⟨by decide, fun s c r lat az => ?_⟩
  simp [eotvos_correction]

/-- C10: the module text of `gravity_corrections.py` is not valid Python —
line 175 is an expression statement starting with binary `*`, line 199 is a
statement cut off after a trailing `*` (its brackets are balanced, so the
newline ends it), hence the module fails to parse and none of the correction
functions is callable as written. -/
theorem gravity_corrections_module_invalid :
    pyMulStatementLine line_175 = true
    ∧ pyDanglingMulLine line_199 = true
    ∧ pyCompleteLine line_199 = false
    ∧ gravity_corrections_parses = false := by
  refine ⟨by decide, by decide, by decide, by decide⟩

/-- C6 counterexample: calling `bouguer_correction` with a plain scalar
topography does not succeed — the `topography.shape` access raises
`AttributeError` (modelled here at `topography = 1000`, densities 2670 and
1040, with `np.pi` instantiated at `3`; the error is raised before any
arithmetic, so the value of π is immaterial). -/
theorem bouguer_correction_scalar_errors :
    bouguer_correction_py 3 (PyVal.scalar 1000) 2670 1040
      = Except.error (r"AttributeError: scalar topography has no attribute shape") :=
  rfl

/-- C6 amended: `bouguer_correction` succeeds on every array input with no
side effects, but every plain-scalar call fails with `AttributeError` at the
`topography.shape` access rather than returning a value. -/
theorem bouguer_correction_array_ok_scalar_not (pi c w q : ℚ)
    (topography : List ℚ) :
    pyOk (bouguer_correction_py pi (PyVal.arr topography) c w) = true
    ∧ pyOk (bouguer_correction_py pi (PyVal.scalar q) c w) = false :=
  ⟨rfl, rfl⟩

/-- C9: with `density_water < density_crust` and `0 ≤ density_water`, the
Bouguer correction is monotone non-decreasing in topography — both branches
have positive slope and agree (value 0) at `h = 0` (π positive). -/
theorem bouguer_correction_monotone (pi c w h1 h2 x1 x2 : ℚ)
    (hpi : 0 < pi) (hw : 0 ≤ w) (hcw : w < c) (h12 : h1 ≤ h2)
    (e1 : bouguer_correction pi [h1] c w = [some x1])
    (e2 : bouguer_correction pi [h2] c w = [some x2]) : x1 ≤ x2 := by
  have hG : (0 : ℚ) < GRAVITATIONAL_CONST := by norm_num [GRAVITATIONAL_CONST]
  have hK : (0 : ℚ) < 1e5 * 2 * pi * GRAVITATIONAL_CONST :=
    mul_pos (mul_pos (by norm_num) hpi) hG
  rw [bouguer_correction_eq_map] at e1 e2
  simp only [List.map_cons, List.map_nil, List.cons.injEq, and_true,
    Option.some.injEq] at e1 e2
  subst e1 e2
  by_cases c1 : h1 < 0 <;> by_cases c2 : h2 < 0 <;> simp only [c1, c2, if_true, if_false]
  · nlinarith [mul_nonneg (le_of_lt (mul_pos hK (by linarith : (0:ℚ) < -1 * (w - c))))
      (sub_nonneg.2 h12)]
  · nlinarith [mul_neg_of_pos_of_neg (mul_pos hK (by linarith : (0:ℚ) < -1 * (w - c))) c1,
      mul_nonneg (le_of_lt (mul_pos hK (by linarith : (0:ℚ) < c))) (not_lt.1 c2)]
  · linarith [not_lt.1 c1]
  · nlinarith [mul_nonneg (le_of_lt (mul_pos hK (by linarith : (0:ℚ) < c)))
      (sub_nonneg.2 h12)]

/-- C9 witness: at π = 3, densities 2670/1040 and topography −1 ≤ 2, the
ocean value is at most the land value. -/
theorem bouguer_correction_monotone_witness :
    (1e5 * 2 * 3 * GRAVITATIONAL_CONST * (-1 * (1040 - 2670)) * (-1) : ℚ)
      ≤ 1e5 * 2 * 3 * GRAVITATIONAL_CONST * 2670 * 2 :=
  bouguer_correction_monotone 3 2670 1040 (-1) 2
    (1e5 * 2 * 3 * GRAVITATIONAL_CONST * (-1 * (1040 - 2670)) * (-1))
    (1e5 * 2 * 3 * GRAVITATIONAL_CONST * 2670 * 2)
    (by norm_num) (by norm_num) (by norm_num) (by norm_num)
    (by rw [bouguer_correction_eq_map]; norm_num)
    (by rw [bouguer_correction_eq_map]; norm_num)

/-- Negating every mass negates each summand of the point-mass reduction. -/
theorem zipWith_neg_masses_sum (p : ℝ × ℝ × ℝ) (sources : List (ℝ × ℝ × ℝ))
    (masses : List ℝ) :
    (List.zipWith
        (fun s m => (GRAVITATIONAL_CONST : ℝ) * m * point_mass_gz_kernel p s)
        sources (masses.map (fun m => -m))).sum
      = -(List.zipWith
        (fun s m => (GRAVITATIONAL_CONST : ℝ) * m * point_mass_gz_kernel p s)
        sources masses).sum := by
  induction sources generalizing masses with
  | nil => simp
  | cons s ss ih =>
    cases masses with
    | nil => simp
    | cons m ms =>
      simp only [List.map_cons, List.zipWith_cons_cons, List.sum_cons, ih]
      ring

/-- C7: negating every mass in the masses array negates every element of the
field array returned by `point_mass_gravity` exactly (linearity in the
masses). -/
theorem point_mass_gravity_neg_masses (observations sources : List (ℝ × ℝ × ℝ))
    (masses : List ℝ) :
    point_mass_gravity observations sources (masses.map (fun m => -m))
      = (point_mass_gravity observations sources masses).map (fun g => -g) := by
  unfold point_mass_gravity
  rw [List.map_map]
  congr 1
  funext p
  simpa using zipWith_neg_masses_sum p sources masses

end Harmonica
